import Mathlib

/-!
Verification development for the `configure_wsl_network.py` / `wsl_get_ip.py`
utilities.  The scripts are embedded shallowly: every external process
invocation (`subprocess.run`) is a call to an explicit environment oracle
`Env.run`, every `input(...)` prompt is a call to `Env.input`, and each
function returns the ordered list of observable effects (commands executed,
lines printed, prompts shown) next to its return value.  Machine integers are
`Nat`/`Int`; Python string operations are modelled on `String.data`
character lists.
-/

/-- Result of one external process invocation, mirroring the fields of
`subprocess.CompletedProcess` that the scripts read (`returncode`, `stdout`,
`stderr`, with `capture_output=True, text=True`). -/
structure CmdResult where
  returncode : Int
  stdout : String
  stderr : String
deriving Repr, DecidableEq

/-- The external world: what each command returns and what each interactive
prompt answers.  The scripts are deterministic functions of this oracle. -/
structure Env where
  run : List String → CmdResult
  input : String → String

/-- Observable effects, in program order: an executed external command, a
printed line, or an interactive prompt. -/
inductive Effect where
  | runCmd (cmd : List String)
  | printLine (s : String)
  | prompt (msg : String)
deriving Repr, DecidableEq

/-- Parsed command line of `configure_wsl_network.py` (`argparse` result):
`--cidr`, `--gateway`, `--interface-index`, `--dry-run`, `--status`. -/
structure Args where
  cidr : Option String
  gateway : Option String
  interface_index : Option Int
  dry_run : Bool
  status : Bool

/-- How a `main` invocation terminates: fell off the end normally, called
`exit(code)`, or died on an uncaught exception (e.g. `int()` on a
non-numeric prompt answer). -/
inductive MainOutcome where
  | normal
  | exited (code : Nat)
  | crashed
deriving Repr, DecidableEq

/-! ### Python string primitives used by the scripts -/

/-- Python truthiness of an optional string (`argparse` default `None` and
the empty string are both falsy). -/
def pyTruthy : Option String → Bool
  | none => false
  | some s => s != ""

/-- Python truthiness of an optional int (`None` and `0` are falsy). -/
def pyIntTruthy : Option Int → Bool
  | none => false
  | some i => i != 0

/-- Split a character list at every character satisfying `p`, keeping empty
segments (the list of segments is never empty). -/
def splitPred (p : Char → Bool) : List Char → List (List Char)
  | [] => [[]]
  | c :: t =>
    if p c then [] :: splitPred p t
    else
      match splitPred p t with
      | [] => [[c]]
      | h :: r => (c :: h) :: r

/-- Split a character list on one separator character, keeping empty
segments. -/
def splitOnChar (sep : Char) (l : List Char) : List (List Char) :=
  splitPred (fun c => c == sep) l

/-- Segments of a character list between line terminators `\n`, `\r\n`,
`\r` (a trailing terminator still yields a final empty segment here). -/
def splitLinesChars : List Char → List (List Char)
  | [] => [[]]
  | '\r' :: '\n' :: t => [] :: splitLinesChars t
  | '\n' :: t => [] :: splitLinesChars t
  | '\r' :: t => [] :: splitLinesChars t
  | c :: t =>
    match splitLinesChars t with
    | [] => [[c]]
    | h :: r => (c :: h) :: r

/-- `str.splitlines()`: split on line terminators, interior empties kept, a
trailing terminator produces no empty final element. -/
def pySplitlines (s : String) : List String :=
  let parts := splitLinesChars s.data
  let parts := if parts.getLast? = some [] then parts.dropLast else parts
  parts.map String.mk

/-- `str.split()` with no separator: split on whitespace runs, no empty
tokens. -/
def pySplit (s : String) : List String :=
  ((splitPred Char.isWhitespace s.data).filter (fun t => !t.isEmpty)).map String.mk

/-- `str.strip()`: drop whitespace from both ends. -/
def pyStrip (s : String) : String :=
  String.mk (((s.data.dropWhile Char.isWhitespace).reverse.dropWhile Char.isWhitespace).reverse)

/-- `hay.startswith(needle)` on character lists. -/
def listStartsWith : List Char → List Char → Bool
  | _, [] => true
  | [], _ :: _ => false
  | a :: as, b :: bs => a == b && listStartsWith as bs

/-- `needle in hay` on character lists: some suffix of `hay` starts with
`needle`. -/
def listContainsSublist (hay needle : List Char) : Bool :=
  match hay with
  | [] => listStartsWith [] needle
  | c :: t => listStartsWith (c :: t) needle || listContainsSublist t needle

/-- Python's `needle in hay` substring test on strings. -/
def strContainsSub (hay needle : String) : Bool :=
  listContainsSublist hay.data needle.data

/-- Numeric value of a run of ASCII digits. -/
def digitsVal (l : List Char) : Nat :=
  l.foldl (fun acc c => acc * 10 + (c.toNat - 48)) 0

/-- `int(s)` as used on the interface-index prompt answer: optional
surrounding whitespace, optional sign, then ASCII digits. -/
def pyParseInt (s : String) : Option Int :=
  let t := (pyStrip s).data
  let core := if listStartsWith t ['-'] ∨ listStartsWith t ['+'] then t.drop 1 else t
  if core.length = 0 ∨ ¬ core.all Char.isDigit then none
  else
    let v : Int := Int.ofNat (digitsVal core)
    some (if listStartsWith t ['-'] then -v else v)

/-! ### `ipaddress.IPv4Network(cidr, strict=False)` parsing -/

/-- One dotted-quad octet per CPython `ipaddress._parse_octet`: 1 to 3 ASCII
digits, no leading zero, value at most 255. -/
def pyParseOctet (l : List Char) : Option Nat :=
  if l.length = 0 ∨ l.length > 3 then none
  else if ¬ l.all Char.isDigit then none
  else if l.length > 1 ∧ l.head? = some '0' then none
  else
    let v := digitsVal l
    if v > 255 then none else some v

/-- `ipaddress._ip_int_from_string`: exactly four octets separated by dots,
big-endian value. -/
def pyParseIPv4 (l : List Char) : Option Nat :=
  match (splitOnChar '.' l).mapM pyParseOctet with
  | some [a, b, c, d] => some (((a * 256 + b) * 256 + c) * 256 + d)
  | _ => none

/-- `ipaddress._prefix_from_prefix_string`: ASCII digits only, value at most
32. -/
def pyParsePlen (l : List Char) : Option Nat :=
  if l.length = 0 ∨ ¬ l.all Char.isDigit then none
  else if digitsVal l > 32 then none
  else some (digitsVal l)

/-- `ipaddress._ip_int_from_prefix`: the netmask value of a prefix length,
`ALL_ONES ^ (ALL_ONES >> prefixlen)`. -/
def maskOfPlen (p : Nat) : Nat :=
  0xFFFFFFFF ^^^ (0xFFFFFFFF >>> p)

/-- `ipaddress._prefix_from_ip_int`: the prefix length whose netmask equals
`n`, if `n` is a valid (contiguous-ones) netmask value. -/
def plenFromIpInt (n : Nat) : Option Nat :=
  (List.range 33).find? (fun p => maskOfPlen p == n)

/-- `ipaddress.IPv4Network._make_netmask` on the part after `/`: first try a
decimal prefix length, else a dotted-quad netmask, else a dotted-quad
hostmask. -/
def pyParseNetmaskArg (l : List Char) : Option Nat :=
  match pyParsePlen l with
  | some p => some p
  | none =>
    match pyParseIPv4 l with
    | none => none
    | some ip =>
      match plenFromIpInt ip with
      | some p => some p
      | none => plenFromIpInt (0xFFFFFFFF ^^^ ip)

/-- `ipaddress.IPv4Network(s)` component parsing: at most one `/`; the part
before it is a dotted-quad address, the part after it a prefix length or
mask; a missing `/` means prefix length 32.  Returns (address value, prefix
length). -/
def parseIPv4NetworkComponents (s : String) : Option (Nat × Nat) :=
  match splitOnChar '/' s.data with
  | [a] => (pyParseIPv4 a).map (fun ip => (ip, 32))
  | [a, m] =>
    match pyParseIPv4 a, pyParseNetmaskArg m with
    | some ip, some p => some (ip, p)
    | _, _ => none
  | _ => none

/-- `str(ipaddress.IPv4Address(n))`: dotted-quad rendering of a 32-bit
value. -/
def ipToString (n : Nat) : String :=
  toString (n / 16777216 % 256) ++ "." ++ toString (n / 65536 % 256) ++ "."
    ++ toString (n / 256 % 256) ++ "." ++ toString (n % 256)

/-- `parse_cidr` (configure_wsl_network.py:118-127): `IPv4Network(cidr,
strict=False)`, returning `(str(network_address), str(netmask))`; the
network address is the parsed address with host bits masked off.  The
source prints `Invalid CIDR format` and calls `exit(1)` on failure; the
embedding returns `none` there and `main` realizes the print and the
exit. -/
def parse_cidr (cidr : String) : Option (String × String) :=
  match parseIPv4NetworkComponents cidr with
  | some (ip, p) =>
    some (ipToString (ip &&& maskOfPlen p), ipToString (maskOfPlen p))
  | none => none

/-! ### The scripts' functions -/

/-- The guest introspection command `wsl ip -4 addr show eth0`. -/
def wslIpCmd : List String :=
  ["wsl", "ip", "-4", "addr", "show", "eth0"]

/-- `get_wsl_ip_cidr` (configure_wsl_network.py:6-30): run the guest `ip`
command; on success return the second whitespace token of the first line
containing `inet`; on command failure, on no such line, or on a matched
line with fewer than two tokens (an `IndexError` swallowed by the
`except`), print a message and return `None`. -/
def get_wsl_ip_cidr (env : Env) : List Effect × Option String :=
  let result := env.run wslIpCmd
  if result.returncode ≠ 0 then
    ([Effect.runCmd wslIpCmd,
      Effect.printLine ("Error running command: " ++ result.stderr)], none)
  else
    match (pySplitlines result.stdout).find? (fun line => strContainsSub line "inet") with
    | some line =>
      match pySplit (pyStrip line) with
      | _ :: cidr :: _ => ([Effect.runCmd wslIpCmd], some cidr)
      | _ =>
        ([Effect.runCmd wslIpCmd,
          Effect.printLine
            "Error retrieving WSL IP address in CIDR format: list index out of range"],
         none)
    | none =>
      ([Effect.runCmd wslIpCmd, Effect.printLine "No IP address found for eth0."], none)

namespace WslGetIp

/-- `get_wsl_ip_cidr` (wsl_get_ip.py:3-27), a verbatim second copy of the
same query in the sibling script. -/
def get_wsl_ip_cidr (env : Env) : List Effect × Option String :=
  let result := env.run wslIpCmd
  if result.returncode ≠ 0 then
    ([Effect.runCmd wslIpCmd,
      Effect.printLine ("Error running command: " ++ result.stderr)], none)
  else
    match (pySplitlines result.stdout).find? (fun line => strContainsSub line "inet") with
    | some line =>
      match pySplit (pyStrip line) with
      | _ :: cidr :: _ => ([Effect.runCmd wslIpCmd], some cidr)
      | _ =>
        ([Effect.runCmd wslIpCmd,
          Effect.printLine
            "Error retrieving WSL IP address in CIDR format: list index out of range"],
         none)
    | none =>
      ([Effect.runCmd wslIpCmd, Effect.printLine "No IP address found for eth0."], none)

end WslGetIp

/-- The adapter enumeration command of `get_network_adapters`. -/
def adapterListCmd : List String :=
  ["powershell", "-Command",
   "Get-NetIPConfiguration | Select-Object InterfaceAlias, InterfaceIndex, IPv4Address, @\x7bName=\x27IPv4DefaultGateway\x27; Expression=\x7b$_.IPv4DefaultGateway.NextHop\x7d\x7d"]

/-- `get_network_adapters` (configure_wsl_network.py:32-46): display-only
enumeration of host adapters. -/
def get_network_adapters (env : Env) : List Effect :=
  let result := env.run adapterListCmd
  if result.returncode = 0 then
    [Effect.runCmd adapterListCmd,
     Effect.printLine "Available Network Interfaces:",
     Effect.printLine result.stdout]
  else
    [Effect.runCmd adapterListCmd,
     Effect.printLine ("Failed to retrieve network adapters:\n" ++ result.stderr)]

/-- The gateway-by-index query command of `get_gateway_from_nic`. -/
def gatewayQueryCmd (interface_index : Int) : List String :=
  ["powershell", "-Command",
   "Get-NetIPConfiguration | Where-Object \x7b $_.InterfaceIndex -eq "
     ++ toString interface_index
     ++ " \x7d | Select-Object -ExpandProperty IPv4DefaultGateway | Select-Object -ExpandProperty NextHop"]

/-- `get_gateway_from_nic` (configure_wsl_network.py:48-67): query the
default gateway of the adapter with the given index; trimmed stdout, `None`
when empty or when the query fails. -/
def get_gateway_from_nic (interface_index : Int) (env : Env) :
    List Effect × Option String :=
  let cmd := gatewayQueryCmd interface_index
  let result := env.run cmd
  if result.returncode = 0 then
    let gateway := pyStrip result.stdout
    if gateway ≠ "" then
      ([Effect.runCmd cmd], some gateway)
    else
      ([Effect.runCmd cmd,
        Effect.printLine ("No gateway found for interface index \x27"
          ++ toString interface_index ++ "\x27.")], none)
  else
    ([Effect.runCmd cmd,
      Effect.printLine ("Failed to retrieve gateway for interface index \x27"
        ++ toString interface_index ++ "\x27:\n" ++ result.stderr)], none)

/-- `check_route_status` (configure_wsl_network.py:69-83): `route print`,
then a raw substring test of the subnet against each output line. -/
def check_route_status (subnet : String) (env : Env) : List Effect × Bool :=
  let cmd := ["route", "print"]
  let result := env.run cmd
  if result.returncode ≠ 0 then
    ([Effect.runCmd cmd, Effect.printLine "Failed to retrieve route information."], false)
  else
    match (pySplitlines result.stdout).find? (fun line => strContainsSub line subnet) with
    | some line =>
      ([Effect.runCmd cmd,
        Effect.printLine ("Route exists for " ++ subnet ++ ":"),
        Effect.printLine (pyStrip line)], true)
    | none =>
      ([Effect.runCmd cmd, Effect.printLine ("No route found for " ++ subnet ++ ".")], false)

/-- `delete_existing_route` (configure_wsl_network.py:85-95): in dry-run
mode only print the command; otherwise run it and print one line for
either outcome. -/
def delete_existing_route (subnet : String) (dry_run : Bool) (env : Env) :
    List Effect :=
  let cmd := ["route", "delete", subnet]
  if dry_run then
    [Effect.printLine ("[Dry Run] Command to delete route: " ++ String.intercalate " " cmd)]
  else
    let result := env.run cmd
    if result.returncode = 0 then
      [Effect.runCmd cmd,
       Effect.printLine ("Deleted existing route for " ++ subnet ++ ":\n" ++ result.stdout)]
    else
      [Effect.runCmd cmd,
       Effect.printLine ("No existing route found for " ++ subnet
         ++ " or failed to delete:\n" ++ result.stderr)]

/-- `add_static_route` (configure_wsl_network.py:97-116): in dry-run mode
only print the command; otherwise run it and print one line for either
outcome. -/
def add_static_route (subnet mask gateway : String) (interface_index : Int)
    (dry_run : Bool) (env : Env) : List Effect :=
  let cmd := ["route", "add", subnet, "MASK", mask, gateway, "IF", toString interface_index]
  if dry_run then
    [Effect.printLine ("[Dry Run] Command to add route: " ++ String.intercalate " " cmd)]
  else
    let result := env.run cmd
    if result.returncode = 0 then
      [Effect.runCmd cmd,
       Effect.printLine ("Static route added successfully:\n" ++ result.stdout)]
    else
      [Effect.runCmd cmd,
       Effect.printLine ("Failed to add static route:\n" ++ result.stderr)]

/-- The reconciliation core, configure_wsl_network.py:166-170: delete any
existing route, then add the desired one, in that order. -/
def reconcile (subnet mask gateway : String) (interface_index : Int)
    (dry_run : Bool) (env : Env) : List Effect :=
  delete_existing_route subnet dry_run env
    ++ add_static_route subnet mask gateway interface_index dry_run env

/-- Prompt text of configure_wsl_network.py:143. -/
def cidrPromptMsg : String :=
  "Enter the WSL instance IP address in CIDR format (e.g., 172.16.0.0/12): "

/-- Prompt text of configure_wsl_network.py:157. -/
def idxPromptMsg : String :=
  "Enter the InterfaceIndex of the desired NIC: "

/-- Prompt text of configure_wsl_network.py:164. -/
def gwPromptMsg : String :=
  "Enter the gateway IP address of the desired NIC: "

/-- CIDR resolution (configure_wsl_network.py:140-143): explicit argument,
else live guest query, else interactive prompt. -/
def resolveCidr (args : Args) (env : Env) : List Effect × String :=
  if pyTruthy args.cidr then ([], args.cidr.getD "")
  else
    let q := get_wsl_ip_cidr env
    if pyTruthy q.2 then (q.1, q.2.getD "")
    else (q.1 ++ [Effect.prompt cidrPromptMsg], env.input cidrPromptMsg)

/-- Interface-index resolution (configure_wsl_network.py:153-157): a falsy
index (absent, or explicitly 0) triggers enumeration plus a prompt whose
answer goes through `int(...)`; a non-numeric answer is an uncaught
`ValueError` (`none` here). -/
def resolveIndex (args : Args) (env : Env) : List Effect × Option Int :=
  if pyIntTruthy args.interface_index then ([], args.interface_index)
  else
    (Effect.printLine "Available network adapters:"
       :: get_network_adapters env ++ [Effect.prompt idxPromptMsg],
     pyParseInt (env.input idxPromptMsg))

/-- Gateway resolution (configure_wsl_network.py:159-164): explicit
argument, else gateway-by-index lookup, else interactive prompt whose
answer is used as-is. -/
def resolveGateway (args : Args) (idx : Int) (env : Env) : List Effect × String :=
  if pyTruthy args.gateway then ([], args.gateway.getD "")
  else
    let q := get_gateway_from_nic idx env
    if pyTruthy q.2 then (q.1, q.2.getD "")
    else
      (q.1 ++ [Effect.printLine "Unable to determine the gateway. Please provide it manually.",
               Effect.prompt gwPromptMsg],
       env.input gwPromptMsg)

namespace Script

/-- `main` (configure_wsl_network.py:129-174), after argument parsing:
resolve the CIDR, abort with exit status 1 on a parse failure, handle
`--status`, resolve index and gateway, then reconcile.  The
`KeyboardInterrupt` handler is outside the embedding (no interrupts in the
oracle model). -/
def main (args : Args) (env : Env) : List Effect × MainOutcome :=
  let rc := resolveCidr args env
  match parse_cidr rc.2 with
  | none =>
    (rc.1 ++ [Effect.printLine ("Invalid CIDR format: " ++ rc.2)], MainOutcome.exited 1)
  | some sm =>
    if args.status then
      (rc.1 ++ (check_route_status sm.1 env).1, MainOutcome.normal)
    else
      let ri := resolveIndex args env
      match ri.2 with
      | none => (rc.1 ++ ri.1, MainOutcome.crashed)
      | some idx =>
        let rg := resolveGateway args idx env
        (rc.1 ++ ri.1 ++ rg.1 ++ reconcile sm.1 sm.2 rg.2 idx args.dry_run env,
         MainOutcome.normal)

end Script

/-! ### Effect classifiers -/

/-- An executed external command of any kind. -/
def isRunCmd (e : Effect) : Bool :=
  match e with
  | Effect.runCmd _ => true
  | _ => false

/-- An executed route mutation: `route delete ...` or `route add ...`. -/
def isRouteMutation (e : Effect) : Bool :=
  match e with
  | Effect.runCmd ("route" :: "delete" :: _) => true
  | Effect.runCmd ("route" :: "add" :: _) => true
  | _ => false

/-- An executed adapter enumeration or gateway query (`powershell ...`). -/
def isAdapterQuery (e : Effect) : Bool :=
  match e with
  | Effect.runCmd ("powershell" :: _) => true
  | _ => false

/-! ### String and bit-level lemmas -/

theorem strDataEq {a b : String} (h : a.data = b.data) : a = b := by
  cases a; cases b; exact congrArg String.mk h

theorem strApp_data (a b : String) : (a ++ b).data = a.data ++ b.data := by
  cases a; cases b; rfl

theorem strAppend_assoc (a b c : String) : a ++ b ++ c = a ++ (b ++ c) := by
  cases a; cases b; cases c
  exact congrArg String.mk (List.append_assoc _ _ _)

theorem listStartsWith_iff (h n : List Char) :
    listStartsWith h n = true ↔ ∃ b, h = n ++ b := by
  induction n generalizing h with
  | nil =>
    simp [listStartsWith]
  | cons x xs ih =>
    cases h with
    | nil =>
      simp [listStartsWith]
    | cons y ys =>
      simp only [listStartsWith, Bool.and_eq_true, beq_iff_eq, ih,
        List.cons_append, List.cons.injEq]
      constructor
      · rintro ⟨rfl, b, rfl⟩; exact ⟨b, rfl, rfl⟩
      · rintro ⟨b, rfl, rfl⟩; exact ⟨rfl, b, rfl⟩

theorem listContainsSublist_iff (h n : List Char) :
    listContainsSublist h n = true ↔ ∃ a b, h = a ++ n ++ b := by
  induction h with
  | nil =>
    simp only [listContainsSublist, listStartsWith_iff]
    constructor
    · rintro ⟨b, hb⟩
      exact ⟨[], b, hb⟩
    · rintro ⟨a, b, hab⟩
      rcases List.append_eq_nil.mp (List.append_eq_nil.mp hab.symm).1 with ⟨rfl, rfl⟩
      exact ⟨b, hab⟩
  | cons c t ih =>
    simp only [listContainsSublist, Bool.or_eq_true, listStartsWith_iff, ih]
    constructor
    · rintro (⟨b, hb⟩ | ⟨a, b, hab⟩)
      · exact ⟨[], b, by simpa using hb⟩
      · exact ⟨c :: a, b, by simp [hab]⟩
    · rintro ⟨a, b, hab⟩
      cases a with
      | nil => exact Or.inl ⟨b, by simpa using hab⟩
      | cons a0 a' =>
        right
        simp only [List.cons_append, List.cons.injEq] at hab
        exact ⟨a', b, hab.2⟩

theorem strContainsSub_iff (h n : String) :
    strContainsSub h n = true ↔ ∃ a b, h = a ++ n ++ b := by
  unfold strContainsSub
  rw [listContainsSublist_iff]
  constructor
  · rintro ⟨a, b, hab⟩
    refine ⟨⟨a⟩, ⟨b⟩, strDataEq ?_⟩
    simpa [strApp_data] using hab
  · rintro ⟨a, b, rfl⟩
    exact ⟨a.data, b.data, by simp [strApp_data]⟩

theorem maskOfPlen_testBit (p i : Nat) (hi : i < 32) :
    (maskOfPlen p).testBit i = decide (32 - p ≤ i) := by
  have h32 : (0xFFFFFFFF : Nat) = 2 ^ 32 - 1 := by norm_num
  unfold maskOfPlen
  rw [h32, Nat.testBit_xor, Nat.testBit_shiftRight, Nat.testBit_two_pow_sub_one,
    Nat.testBit_two_pow_sub_one]
  by_cases hc : 32 - p ≤ i
  · have : ¬ (p + i < 32) := by omega
    simp [hi, hc, this]
  · have : p + i < 32 := by omega
    simp [hi, hc, this]

theorem maskOfPlen_land_mod (v p : Nat) :
    (v &&& maskOfPlen p) % 2 ^ (32 - p) = 0 := by
  apply Nat.eq_of_testBit_eq
  intro i
  rw [Nat.zero_testBit, Nat.testBit_mod_two_pow, Nat.testBit_and]
  by_cases hik : i < 32 - p
  · have hi32 : i < 32 := by omega
    rw [maskOfPlen_testBit p i hi32]
    have : ¬ (32 - p ≤ i) := by omega
    simp [this]
  · simp [hik]

theorem pyParsePlen_le (l : List Char) (p : Nat) (h : pyParsePlen l = some p) :
    p ≤ 32 := by
  unfold pyParsePlen at h
  split at h
  · exact absurd h (by simp)
  · split at h
    · exact absurd h (by simp)
    · simp only [Option.some.injEq] at h
      omega

theorem plenFromIpInt_le (n p : Nat) (h : plenFromIpInt n = some p) : p ≤ 32 := by
  unfold plenFromIpInt at h
  have := List.mem_of_find?_eq_some h
  rw [List.mem_range] at this
  omega

theorem pyParseNetmaskArg_le (l : List Char) (p : Nat)
    (h : pyParseNetmaskArg l = some p) : p ≤ 32 := by
  unfold pyParseNetmaskArg at h
  split at h
  · rename_i q hq
    cases h
    exact pyParsePlen_le l p hq
  · split at h
    · exact absurd h (by simp)
    · split at h
      · rename_i q hq
        cases h
        exact plenFromIpInt_le _ p hq
      · exact plenFromIpInt_le _ p h

theorem parseIPv4NetworkComponents_le (s : String) (ip p : Nat)
    (h : parseIPv4NetworkComponents s = some (ip, p)) : p ≤ 32 := by
  unfold parseIPv4NetworkComponents at h
  split at h
  · rcases Option.map_eq_some'.mp h with ⟨q, _, hq⟩
    cases hq
    omega
  · split at h
    · simp only [Option.some.injEq, Prod.mk.injEq] at h
      rename_i hip hm
      rcases h with ⟨rfl, rfl⟩
      exact pyParseNetmaskArg_le _ _ hm
    · exact absurd h (by simp)
  · exact absurd h (by simp)

/-! ### Concrete environments for witnesses and counterexamples -/

/-- Environment in which every command succeeds with empty output and every
prompt answers the empty string. -/
def defaultEnv : Env :=
  { run := fun _ => { returncode := 0, stdout := "", stderr := "" },
    input := fun _ => "" }

/-- Environment in which `route delete` fails because there is nothing to
delete, and everything else succeeds. -/
def deleteAbsentEnv : Env :=
  { run := fun cmd =>
      if cmd.take 2 = ["route", "delete"] then
        { returncode := 1, stdout := "", stderr := "The route specified was not found." }
      else { returncode := 0, stdout := "", stderr := "" },
    input := fun _ => "" }

/-- Environment in which `route add` fails and everything else succeeds. -/
def addFailEnv : Env :=
  { run := fun cmd =>
      if cmd.take 2 = ["route", "add"] then
        { returncode := 1, stdout := "", stderr := "The parameter is incorrect." }
      else { returncode := 0, stdout := "", stderr := "" },
    input := fun _ => "" }

/-! ### Claims -/

/-- C1: with `dryRun=true`, `reconcile` executes no command at all — in
particular neither route mutation — and emits exactly the two preview
lines, delete first, add second; on subnet `172.16.0.0`, mask
`255.240.0.0`, gateway `192.168.1.1`, adapter index 7 the previewed
commands are `route delete 172.16.0.0` and
`route add 172.16.0.0 MASK 255.240.0.0 192.168.1.1 IF 7`. -/
theorem claim1_dry_run_preview :
    (∀ (s m g : String) (i : Int) (env : Env),
      reconcile s m g i true env =
        [Effect.printLine ("[Dry Run] Command to delete route: " ++ ("route delete " ++ s)),
         Effect.printLine ("[Dry Run] Command to add route: "
           ++ ("route add " ++ s ++ " " ++ "MASK" ++ " " ++ m ++ " " ++ g
                ++ " " ++ "IF" ++ " " ++ toString i))] ∧
      (reconcile s m g i true env).filter isRunCmd = []) ∧
    reconcile "172.16.0.0" "255.240.0.0" "192.168.1.1" 7 true defaultEnv =
      [Effect.printLine "[Dry Run] Command to delete route: route delete 172.16.0.0",
       Effect.printLine
         "[Dry Run] Command to add route: route add 172.16.0.0 MASK 255.240.0.0 192.168.1.1 IF 7"] :=
  ⟨fun _ _ _ _ _ => ⟨rfl, rfl⟩, rfl⟩

/-- C2 (counterexample): with `dryRun=false`, when the underlying delete
command does not succeed because the route is absent, the code is not
silent: it prints the combined deletion notice, so a deletion-failure
report is emitted even in the absence case (while still proceeding to the
add step). -/
theorem claim2_counterexample :
    reconcile "172.16.0.0" "255.240.0.0" "192.168.1.1" 7 false deleteAbsentEnv =
      [Effect.runCmd ["route", "delete", "172.16.0.0"],
       Effect.printLine
         "No existing route found for 172.16.0.0 or failed to delete:\nThe route specified was not found.",
       Effect.runCmd ["route", "add", "172.16.0.0", "MASK", "255.240.0.0", "192.168.1.1", "IF", "7"],
       Effect.printLine "Static route added successfully:\n"] ∧
    Effect.printLine
        "No existing route found for 172.16.0.0 or failed to delete:\nThe route specified was not found."
      ∈ reconcile "172.16.0.0" "255.240.0.0" "192.168.1.1" 7 false deleteAbsentEnv := by
  constructor
  · rfl
  · decide

/-- C2 (amended): with `dryRun=false`, whenever the delete command exits
nonzero — the code cannot tell absence from any other failure — exactly one
non-fatal notice line `No existing route found for ... or failed to delete`
is printed, nothing is raised, and reconciliation proceeds unconditionally
to the add step, whose first action is the `route add` call. -/
theorem claim2_amended_delete_nonfatal :
    ∀ (s m g : String) (i : Int) (env : Env),
      (env.run ["route", "delete", s]).returncode ≠ 0 →
      reconcile s m g i false env =
        Effect.runCmd ["route", "delete", s]
          :: Effect.printLine ("No existing route found for " ++ s
               ++ " or failed to delete:\n" ++ (env.run ["route", "delete", s]).stderr)
          :: add_static_route s m g i false env ∧
      (add_static_route s m g i false env).head? =
        some (Effect.runCmd ["route", "add", s, "MASK", m, g, "IF", toString i]) := by
  intro s m g i env h
  constructor
  · simp [reconcile, delete_existing_route, h]
  · by_cases h2 : (env.run ["route", "add", s, "MASK", m, g, "IF", toString i]).returncode = 0 <;>
      simp [add_static_route, h2]

/-- C2 (amended) witnessed at a concrete environment where the delete
command fails with `The route specified was not found.`. -/
theorem claim2_amended_witness :
    reconcile "172.16.0.0" "255.240.0.0" "192.168.1.1" 7 false deleteAbsentEnv =
      Effect.runCmd ["route", "delete", "172.16.0.0"]
        :: Effect.printLine
             "No existing route found for 172.16.0.0 or failed to delete:\nThe route specified was not found."
        :: add_static_route "172.16.0.0" "255.240.0.0" "192.168.1.1" 7 false deleteAbsentEnv ∧
    (add_static_route "172.16.0.0" "255.240.0.0" "192.168.1.1" 7 false deleteAbsentEnv).head? =
      some (Effect.runCmd ["route", "add", "172.16.0.0", "MASK", "255.240.0.0", "192.168.1.1", "IF", "7"]) :=
  claim2_amended_delete_nonfatal "172.16.0.0" "255.240.0.0" "192.168.1.1" 7 deleteAbsentEnv
    (by decide)

/-- C3: with `dryRun=false`, if the delete succeeds and the add then fails,
the failure is reported as a printed line and the invocation ends there:
the whole trace is delete, its report, add, its failure report, and the
only mutating calls are that single delete and that single add — no re-add
of the previous route and no retry. -/
theorem claim3_add_failure_terminal :
    ∀ (s m g : String) (i : Int) (env : Env),
      (env.run ["route", "delete", s]).returncode = 0 →
      (env.run ["route", "add", s, "MASK", m, g, "IF", toString i]).returncode ≠ 0 →
      reconcile s m g i false env =
        [Effect.runCmd ["route", "delete", s],
         Effect.printLine ("Deleted existing route for " ++ s ++ ":\n"
           ++ (env.run ["route", "delete", s]).stdout),
         Effect.runCmd ["route", "add", s, "MASK", m, g, "IF", toString i],
         Effect.printLine ("Failed to add static route:\n"
           ++ (env.run ["route", "add", s, "MASK", m, g, "IF", toString i]).stderr)] ∧
      (reconcile s m g i false env).filter isRouteMutation =
        [Effect.runCmd ["route", "delete", s],
         Effect.runCmd ["route", "add", s, "MASK", m, g, "IF", toString i]] := by
  intro s m g i env h1 h2
  have he : reconcile s m g i false env =
      [Effect.runCmd ["route", "delete", s],
       Effect.printLine ("Deleted existing route for " ++ s ++ ":\n"
         ++ (env.run ["route", "delete", s]).stdout),
       Effect.runCmd ["route", "add", s, "MASK", m, g, "IF", toString i],
       Effect.printLine ("Failed to add static route:\n"
         ++ (env.run ["route", "add", s, "MASK", m, g, "IF", toString i]).stderr)] := by
    simp [reconcile, delete_existing_route, add_static_route, h1, h2]
  exact ⟨he, by rw [he]; rfl⟩

/-- C3 witnessed at a concrete environment where the delete succeeds and
the add fails with `The parameter is incorrect.`. -/
theorem claim3_witness :
    reconcile "172.16.0.0" "255.240.0.0" "192.168.1.1" 7 false addFailEnv =
      [Effect.runCmd ["route", "delete", "172.16.0.0"],
       Effect.printLine "Deleted existing route for 172.16.0.0:\n",
       Effect.runCmd ["route", "add", "172.16.0.0", "MASK", "255.240.0.0", "192.168.1.1", "IF", "7"],
       Effect.printLine "Failed to add static route:\nThe parameter is incorrect."] ∧
    (reconcile "172.16.0.0" "255.240.0.0" "192.168.1.1" 7 false addFailEnv).filter isRouteMutation =
      [Effect.runCmd ["route", "delete", "172.16.0.0"],
       Effect.runCmd ["route", "add", "172.16.0.0", "MASK", "255.240.0.0", "192.168.1.1", "IF", "7"]] :=
  claim3_add_failure_terminal "172.16.0.0" "255.240.0.0" "192.168.1.1" 7 addFailEnv
    (by decide) (by decide)

/-- Effects produced by the guest-IP query never include a route mutation. -/
theorem get_wsl_no_mutation (env : Env) :
    (get_wsl_ip_cidr env).1.filter isRouteMutation = [] := by
  simp only [get_wsl_ip_cidr]
  split
  · rfl
  · split
    · split <;> rfl
    · rfl

/-- Effects produced by CIDR resolution never include a route mutation. -/
theorem resolveCidr_no_mutation (args : Args) (env : Env) :
    (resolveCidr args env).1.filter isRouteMutation = [] := by
  simp only [resolveCidr]
  split
  · rfl
  · split
    · exact get_wsl_no_mutation env
    · rw [List.filter_append, get_wsl_no_mutation env]
      rfl

/-- C4: whenever a CIDR string parses, the returned subnet is the rendering
of the parsed address with host bits masked off, the returned mask is the
rendering of the prefix netmask, the masked value has all `32 - p` host
bits zero, and the netmask is the standard prefix expansion (bit `i` set
exactly for `32 - p ≤ i < 32`); no independent mask input exists.  On
`172.16.5.37/12` (nonzero host bits) the result is
`("172.16.0.0", "255.240.0.0")`. -/
theorem claim4_parse_cidr_normalizes :
    (∀ (s : String) (ip p : Nat),
      parseIPv4NetworkComponents s = some (ip, p) →
      p ≤ 32 ∧
      parse_cidr s = some (ipToString (ip &&& maskOfPlen p), ipToString (maskOfPlen p)) ∧
      (ip &&& maskOfPlen p) % 2 ^ (32 - p) = 0 ∧
      (∀ i, i < 32 → (maskOfPlen p).testBit i = decide (32 - p ≤ i))) ∧
    parse_cidr "172.16.5.37/12" = some ("172.16.0.0", "255.240.0.0") ∧
    parse_cidr "172.16.0.0/12" = some ("172.16.0.0", "255.240.0.0") := by
  refine ⟨?_, rfl, rfl⟩
  intro s ip p h
  refine ⟨parseIPv4NetworkComponents_le s ip p h, ?_,
    maskOfPlen_land_mod ip p, fun i hi => maskOfPlen_testBit p i hi⟩
  unfold parse_cidr
  rw [h]

/-- C4 witnessed on `172.16.5.37/12`, whose address value is
`2886731045`. -/
theorem claim4_witness :
    12 ≤ 32 ∧
    parse_cidr "172.16.5.37/12" =
      some (ipToString (2886731045 &&& maskOfPlen 12), ipToString (maskOfPlen 12)) ∧
    (2886731045 &&& maskOfPlen 12) % 2 ^ (32 - 12) = 0 ∧
    (∀ i, i < 32 → (maskOfPlen 12).testBit i = decide (32 - 12 ≤ i)) :=
  claim4_parse_cidr_normalizes.1 "172.16.5.37/12" 2886731045 12 (by decide)

/-- C5: if the resolved CIDR string fails to parse, `main` prints the
`Invalid CIDR format` report, terminates with exit status 1, and its trace
contains no route mutation; concretely so for `not-a-cidr` and
`10.0.0.0/33` passed as `--cidr`. -/
theorem claim5_invalid_cidr_aborts :
    (∀ (args : Args) (env : Env),
      parse_cidr (resolveCidr args env).2 = none →
      Script.main args env =
        ((resolveCidr args env).1
           ++ [Effect.printLine ("Invalid CIDR format: " ++ (resolveCidr args env).2)],
         MainOutcome.exited 1) ∧
      (Script.main args env).1.filter isRouteMutation = []) ∧
    Script.main { cidr := some "not-a-cidr", gateway := none, interface_index := none,
                  dry_run := false, status := false } defaultEnv =
      ([Effect.printLine "Invalid CIDR format: not-a-cidr"], MainOutcome.exited 1) ∧
    Script.main { cidr := some "10.0.0.0/33", gateway := none, interface_index := none,
                  dry_run := false, status := false } defaultEnv =
      ([Effect.printLine "Invalid CIDR format: 10.0.0.0/33"], MainOutcome.exited 1) := by
  refine ⟨?_, rfl, rfl⟩
  intro args env h
  have hm : Script.main args env =
      ((resolveCidr args env).1
         ++ [Effect.printLine ("Invalid CIDR format: " ++ (resolveCidr args env).2)],
       MainOutcome.exited 1) := by
    simp only [Script.main]
    rw [h]
  refine ⟨hm, ?_⟩
  rw [hm]
  simp only [List.filter_append, resolveCidr_no_mutation]
  rfl

/-- C5 witnessed on args whose resolved CIDR is the malformed
`not-a-cidr`. -/
theorem claim5_witness :
    Script.main { cidr := some "not-a-cidr", gateway := none, interface_index := none,
                  dry_run := false, status := false } defaultEnv =
      ([Effect.printLine "Invalid CIDR format: not-a-cidr"], MainOutcome.exited 1) ∧
    (Script.main { cidr := some "not-a-cidr", gateway := none, interface_index := none,
                   dry_run := false, status := false } defaultEnv).1.filter isRouteMutation = [] :=
  claim5_invalid_cidr_aborts.1
    { cidr := some "not-a-cidr", gateway := none, interface_index := none,
      dry_run := false, status := false } defaultEnv (by decide)

/-- The `route add` call is always the first effect of a non-dry add
step. -/
theorem add_cmd_mem (s m g : String) (i : Int) (env : Env) :
    Effect.runCmd ["route", "add", s, "MASK", m, g, "IF", toString i]
      ∈ add_static_route s m g i false env := by
  by_cases h : (env.run ["route", "add", s, "MASK", m, g, "IF", toString i]).returncode = 0 <;>
    simp [add_static_route, h]

/-- C6 (counterexample): with no `--gateway`, an adapter whose gateway
lookup yields nothing, and an empty answer to the gateway prompt, `main`
does not fail — it runs `route add` with an empty gateway argument, so
reconciliation does reach route mutation without a concrete gateway and no
`NoGatewayAvailable` failure exists. -/
theorem claim6_counterexample :
    Script.main { cidr := some "172.16.0.0/12", gateway := none, interface_index := some 7,
                  dry_run := false, status := false } defaultEnv =
      ([Effect.runCmd (gatewayQueryCmd 7),
        Effect.printLine "No gateway found for interface index \x277\x27.",
        Effect.printLine "Unable to determine the gateway. Please provide it manually.",
        Effect.prompt gwPromptMsg,
        Effect.runCmd ["route", "delete", "172.16.0.0"],
        Effect.printLine "Deleted existing route for 172.16.0.0:\n",
        Effect.runCmd ["route", "add", "172.16.0.0", "MASK", "255.240.0.0", "", "IF", "7"],
        Effect.printLine "Static route added successfully:\n"],
       MainOutcome.normal) ∧
    Effect.runCmd ["route", "add", "172.16.0.0", "MASK", "255.240.0.0", "", "IF", "7"]
      ∈ (Script.main { cidr := some "172.16.0.0/12", gateway := none, interface_index := some 7,
                       dry_run := false, status := false } defaultEnv).1 := by
  exact ⟨rfl, by decide⟩

/-- C6 (amended): when no gateway is supplied and the lookup by index
returns nothing, `main` prompts for a gateway and then uses whatever string
the prompt returns — including the empty string — directly in the
reconciliation, whose `route add` call carries that value; no
`NoGatewayAvailable` failure is raised. -/
theorem claim6_amended_prompt_gateway_used :
    ∀ (args : Args) (env : Env) (c s m : String) (i : Int),
      args.cidr = some c → c ≠ "" → parse_cidr c = some (s, m) →
      args.status = false → args.interface_index = some i → i ≠ 0 →
      args.gateway = none → args.dry_run = false →
      (env.run (gatewayQueryCmd i)).returncode = 0 →
      pyStrip (env.run (gatewayQueryCmd i)).stdout = "" →
      Script.main args env =
        ([Effect.runCmd (gatewayQueryCmd i),
          Effect.printLine ("No gateway found for interface index \x27" ++ toString i ++ "\x27."),
          Effect.printLine "Unable to determine the gateway. Please provide it manually.",
          Effect.prompt gwPromptMsg]
           ++ reconcile s m (env.input gwPromptMsg) i false env,
         MainOutcome.normal) ∧
      Effect.runCmd ["route", "add", s, "MASK", m, env.input gwPromptMsg, "IF", toString i]
        ∈ (Script.main args env).1 := by
  intro args env c s m i hc hc' hp hst hi hi0 hg hd h0 hemp
  have hrc : resolveCidr args env = ([], c) := by
    simp [resolveCidr, hc, pyTruthy, hc']
  have hri : resolveIndex args env = ([], some i) := by
    simp [resolveIndex, hi, pyIntTruthy, hi0]
  have hgw : get_gateway_from_nic i env =
      ([Effect.runCmd (gatewayQueryCmd i),
        Effect.printLine ("No gateway found for interface index \x27" ++ toString i ++ "\x27.")],
       none) := by
    simp [get_gateway_from_nic, h0, hemp]
  have hrg : resolveGateway args i env =
      ([Effect.runCmd (gatewayQueryCmd i),
        Effect.printLine ("No gateway found for interface index \x27" ++ toString i ++ "\x27."),
        Effect.printLine "Unable to determine the gateway. Please provide it manually.",
        Effect.prompt gwPromptMsg],
       env.input gwPromptMsg) := by
    simp [resolveGateway, hg, pyTruthy, hgw]
  have hmain : Script.main args env =
      ([Effect.runCmd (gatewayQueryCmd i),
        Effect.printLine ("No gateway found for interface index \x27" ++ toString i ++ "\x27."),
        Effect.printLine "Unable to determine the gateway. Please provide it manually.",
        Effect.prompt gwPromptMsg]
         ++ reconcile s m (env.input gwPromptMsg) i false env,
       MainOutcome.normal) := by
    simp [Script.main, hrc, hp, hst, hri, hrg, hd]
  refine ⟨hmain, ?_⟩
  rw [hmain]
  simp only [reconcile, List.mem_append]
  exact Or.inr (Or.inr (add_cmd_mem s m (env.input gwPromptMsg) i env))

/-- C6 (amended) witnessed at the concrete no-gateway scenario. -/
theorem claim6_amended_witness :
    Script.main { cidr := some "172.16.0.0/12", gateway := none, interface_index := some 7,
                  dry_run := false, status := false } defaultEnv =
      ([Effect.runCmd (gatewayQueryCmd 7),
        Effect.printLine "No gateway found for interface index \x277\x27.",
        Effect.printLine "Unable to determine the gateway. Please provide it manually.",
        Effect.prompt gwPromptMsg]
         ++ reconcile "172.16.0.0" "255.240.0.0" "" 7 false defaultEnv,
       MainOutcome.normal) ∧
    Effect.runCmd ["route", "add", "172.16.0.0", "MASK", "255.240.0.0", "", "IF", "7"]
      ∈ (Script.main { cidr := some "172.16.0.0/12", gateway := none, interface_index := some 7,
                       dry_run := false, status := false } defaultEnv).1 :=
  claim6_amended_prompt_gateway_used
    { cidr := some "172.16.0.0/12", gateway := none, interface_index := some 7,
      dry_run := false, status := false } defaultEnv
    "172.16.0.0/12" "172.16.0.0" "255.240.0.0" 7
    rfl (by decide) (by decide) rfl rfl (by decide) rfl rfl (by decide) (by decide)

/-- The effects of the status check contain no route mutation and no
adapter/gateway query. -/
theorem check_status_effects_benign (subnet : String) (env : Env) :
    (check_route_status subnet env).1.all
      (fun e => !(isRouteMutation e || isAdapterQuery e)) = true := by
  simp only [check_route_status]
  split
  · rfl
  · split <;> rfl

/-- Args of a pure `--status` invocation with an explicit CIDR. -/
def argsStatus : Args :=
  { cidr := some "172.16.0.0/12", gateway := none, interface_index := none,
    dry_run := false, status := true }

/-- Environment whose route table contains a line mentioning the
subnet. -/
def routePresentEnv : Env :=
  { run := fun cmd =>
      if cmd = ["route", "print"] then
        { returncode := 0,
          stdout := "IPv4 Route Table\n      172.16.0.0      255.240.0.0      192.168.1.1      7\nPersistent Routes:",
          stderr := "" }
      else { returncode := 0, stdout := "", stderr := "" },
    input := fun _ => "" }

/-- C7: when the route-table query succeeds, the existence check returns
true exactly when some output line contains the subnet string as a raw
substring (no mask or gateway parsing); and a `--status` invocation runs
only the CIDR parse and the check — its trace is the check's trace, which
contains no adapter enumeration, no gateway query and no route
mutation. -/
theorem claim7_route_status :
    (∀ (subnet : String) (env : Env),
      (env.run ["route", "print"]).returncode = 0 →
      ((check_route_status subnet env).2 = true ↔
        ∃ l ∈ pySplitlines (env.run ["route", "print"]).stdout,
          ∃ a b, l = a ++ subnet ++ b)) ∧
    (∀ (args : Args) (env : Env) (c s m : String),
      args.status = true → args.cidr = some c → c ≠ "" → parse_cidr c = some (s, m) →
      Script.main args env = ((check_route_status s env).1, MainOutcome.normal) ∧
      (Script.main args env).1.all
        (fun e => !(isRouteMutation e || isAdapterQuery e)) = true) := by
  constructor
  · intro subnet env h0
    simp only [check_route_status, h0]
    rw [if_neg (by simp)]
    cases hf : List.find? (fun line => strContainsSub line subnet)
        (pySplitlines (env.run ["route", "print"]).stdout) with
    | some l =>
      simp only [hf]
      constructor
      · intro _
        have hps := List.find?_some hf
        exact ⟨l, List.mem_of_find?_eq_some hf, (strContainsSub_iff l subnet).mp hps⟩
      · intro _
        exact trivial
    | none =>
      simp only [hf]
      constructor
      · intro hfalse
        exact absurd hfalse (by simp)
      · rintro ⟨l, hl, a, b, rfl⟩
        rw [List.find?_eq_none] at hf
        exact absurd ((strContainsSub_iff _ subnet).mpr ⟨a, b, rfl⟩)
          (by simpa using hf _ hl)
  · intro args env c s m hst hc hc' hp
    have hrc : resolveCidr args env = ([], c) := by
      simp [resolveCidr, hc, pyTruthy, hc']
    have hmain : Script.main args env =
        ((check_route_status s env).1, MainOutcome.normal) := by
      simp [Script.main, hrc, hp, hst]
    refine ⟨hmain, ?_⟩
    rw [hmain]
    exact check_status_effects_benign s env

/-- C7 witnessed: the route table of `routePresentEnv` has a line
containing `172.16.0.0`, the check reports true, and the `--status`
invocation performs only the check. -/
theorem claim7_witness :
    ((check_route_status "172.16.0.0" routePresentEnv).2 = true ↔
      ∃ l ∈ pySplitlines (routePresentEnv.run ["route", "print"]).stdout,
        ∃ a b, l = a ++ "172.16.0.0" ++ b) ∧
    (Script.main argsStatus routePresentEnv =
        ((check_route_status "172.16.0.0" routePresentEnv).1, MainOutcome.normal) ∧
      (Script.main argsStatus routePresentEnv).1.all
        (fun e => !(isRouteMutation e || isAdapterQuery e)) = true) :=
  ⟨claim7_route_status.1 "172.16.0.0" routePresentEnv (by decide),
   claim7_route_status.2 argsStatus routePresentEnv
     "172.16.0.0/12" "172.16.0.0" "255.240.0.0" rfl rfl (by decide) (by decide)⟩

/-- Environment whose guest `ip` query prints an `inet` line. -/
def wslEnv : Env :=
  { run := fun cmd =>
      if cmd = wslIpCmd then
        { returncode := 0,
          stdout := "2: eth0: <BROADCAST,MULTICAST,UP,LOWER_UP> mtu 1500\n    inet 172.20.112.5/20 brd 172.20.127.255 scope global eth0\n",
          stderr := "" }
      else { returncode := 0, stdout := "", stderr := "" },
    input := fun _ => "" }

/-- C8: the two verbatim copies of the guest-interface query agree on every
environment; on a successful command whose output has a first `inet` line
with at least two whitespace tokens, both return the second token as the
`address/prefix` value; and the query returns `none` whenever no line
contains `inet` or the command invocation fails. -/
theorem claim8_guest_query :
    (∀ env : Env, WslGetIp.get_wsl_ip_cidr env = get_wsl_ip_cidr env) ∧
    (∀ (env : Env) (l t0 t1 : String) (rest : List String),
      (env.run wslIpCmd).returncode = 0 →
      (pySplitlines (env.run wslIpCmd).stdout).find?
          (fun line => strContainsSub line "inet") = some l →
      pySplit (pyStrip l) = t0 :: t1 :: rest →
      (get_wsl_ip_cidr env).2 = some t1 ∧ (WslGetIp.get_wsl_ip_cidr env).2 = some t1) ∧
    (∀ env : Env,
      (env.run wslIpCmd).returncode = 0 →
      (∀ l ∈ pySplitlines (env.run wslIpCmd).stdout, strContainsSub l "inet" = false) →
      (get_wsl_ip_cidr env).2 = none) ∧
    (∀ env : Env,
      (env.run wslIpCmd).returncode ≠ 0 → (get_wsl_ip_cidr env).2 = none) := by
  refine ⟨fun env => rfl, ?_, ?_, ?_⟩
  · intro env l t0 t1 rest h0 hf ht
    constructor
    · simp [get_wsl_ip_cidr, h0, hf, ht]
    · simp [WslGetIp.get_wsl_ip_cidr, h0, hf, ht]
  · intro env h0 hall
    have hf : (pySplitlines (env.run wslIpCmd).stdout).find?
        (fun line => strContainsSub line "inet") = none := by
      rw [List.find?_eq_none]
      intro x hx
      simp [hall x hx]
    simp [get_wsl_ip_cidr, h0, hf]
  · intro env h0
    simp [get_wsl_ip_cidr, h0]

/-- C8 witnessed on a concrete guest `ip` output. -/
theorem claim8_witness :
    (get_wsl_ip_cidr wslEnv).2 = some "172.20.112.5/20" ∧
    (WslGetIp.get_wsl_ip_cidr wslEnv).2 = some "172.20.112.5/20" :=
  claim8_guest_query.2.1 wslEnv
    "    inet 172.20.112.5/20 brd 172.20.127.255 scope global eth0"
    "inet" "172.20.112.5/20" ["brd", "172.20.127.255", "scope", "global", "eth0"]
    (by decide) (by decide) (by decide)

/-- Args passing `--interface-index 0` explicitly. -/
def argsZeroIdx : Args :=
  { cidr := some "172.16.0.0/12", gateway := some "192.168.1.1",
    interface_index := some 0, dry_run := true, status := false }

/-- Environment that answers `5` to the interface-index prompt. -/
def promptEnv : Env :=
  { run := fun _ => { returncode := 0, stdout := "", stderr := "" },
    input := fun q => if q = idxPromptMsg then "5" else "" }

/-- C9: because the presence test on the interface index is truthiness
rather than a `None` check, an explicitly supplied index 0 behaves exactly
like an absent index: `main` is literally the same function as with no
index, so it falls back to adapter enumeration plus the interactive
prompt, and the prompted answer (here `5`) — not the supplied `0` — is
used in the route commands. -/
theorem claim9_zero_index_prompts :
    (∀ (args : Args) (env : Env),
      args.interface_index = some 0 →
      Script.main args env = Script.main { args with interface_index := none } env) ∧
    Script.main argsZeroIdx promptEnv =
      ([Effect.printLine "Available network adapters:",
        Effect.runCmd adapterListCmd,
        Effect.printLine "Available Network Interfaces:",
        Effect.printLine "",
        Effect.prompt idxPromptMsg,
        Effect.printLine "[Dry Run] Command to delete route: route delete 172.16.0.0",
        Effect.printLine
          "[Dry Run] Command to add route: route add 172.16.0.0 MASK 255.240.0.0 192.168.1.1 IF 5"],
       MainOutcome.normal) := by
  constructor
  · intro args env h
    obtain ⟨c, g, ii, d, st⟩ := args
    simp only at h
    subst h
    have hA : resolveCidr
          { cidr := c, gateway := g, interface_index := some 0, dry_run := d, status := st } env
        = resolveCidr
          { cidr := c, gateway := g, interface_index := none, dry_run := d, status := st } env := rfl
    have hB : ∀ idx : Int, resolveGateway
          { cidr := c, gateway := g, interface_index := some 0, dry_run := d, status := st } idx env
        = resolveGateway
          { cidr := c, gateway := g, interface_index := none, dry_run := d, status := st } idx env :=
      fun _ => rfl
    simp [Script.main, resolveIndex, pyIntTruthy, hA, hB]
  · rfl

/-- C9 witnessed: with index 0 the run equals the run with no index at
all. -/
theorem claim9_witness :
    Script.main argsZeroIdx promptEnv =
      Script.main { argsZeroIdx with interface_index := none } promptEnv :=
  claim9_zero_index_prompts.1 argsZeroIdx promptEnv rfl

/-- Environment whose `route print` invocation fails. -/
def envRoutePrintFail : Env :=
  { run := fun cmd =>
      if cmd = ["route", "print"] then
        { returncode := 1, stdout := "", stderr := "The requested operation requires elevation." }
      else { returncode := 0, stdout := "", stderr := "" },
    input := fun _ => "" }

/-- Environment whose route table exists but has no line mentioning the
subnet. -/
def envRouteAbsent : Env :=
  { run := fun cmd =>
      if cmd = ["route", "print"] then
        { returncode := 0, stdout := "IPv4 Route Table\n0.0.0.0 0.0.0.0 192.168.1.1 25",
          stderr := "" }
      else { returncode := 0, stdout := "", stderr := "" },
    input := fun _ => "" }

/-- C10: when the `route print` query itself fails, the existence check
prints its failure notice and returns false — the same boolean as when the
table is readable but simply lacks the route, so the two situations are
indistinguishable at the check's boolean interface. -/
theorem claim10_query_failure_reads_absent :
    (∀ (subnet : String) (env : Env),
      (env.run ["route", "print"]).returncode ≠ 0 →
      check_route_status subnet env =
        ([Effect.runCmd ["route", "print"],
          Effect.printLine "Failed to retrieve route information."], false)) ∧
    (check_route_status "172.16.0.0" envRoutePrintFail).2 =
      (check_route_status "172.16.0.0" envRouteAbsent).2 ∧
    (check_route_status "172.16.0.0" envRoutePrintFail).2 = false := by
  refine ⟨?_, rfl, rfl⟩
  intro subnet env h
  simp [check_route_status, h]

/-- C10 witnessed at a failing `route print`. -/
theorem claim10_witness :
    check_route_status "172.16.0.0" envRoutePrintFail =
      ([Effect.runCmd ["route", "print"],
        Effect.printLine "Failed to retrieve route information."], false) :=
  claim10_query_failure_reads_absent.1 "172.16.0.0" envRoutePrintFail (by decide)
